import Mathlib

/-!
Verification development for the external-process lifecycle supervisor of
this repository.  The development shallowly embeds three source units:

* `src/vs/platform/remoteTunnel/node/remoteTunnelService.ts` — the
  `RemoteTunnelService` supervisor (`updateAccount`, `updateTunnelProcess`,
  `runCodeTunneCommand`) is embedded as an executable state machine.  The
  asynchronous control flow of the TypeScript code is made explicit: the two
  suspension points (`await loginProcess` on line 109 and the
  `serveCommand.finally` handler on line 118) become stored continuations
  that run when the environment delivers the settlement of the
  corresponding operation.
* the unnamed smoke-test launcher file — `waitForEndpoint` and `teardown`
  are embedded as folds over a trace of process events and as a bounded
  retry loop.
* `src/vs/platform/log/electron-main/loggerService.ts` — `LoggerMainService`
  registration and per-window filtering.

Machine state a JavaScript promise would carry implicitly (settled at most
once, continuations attached to it) is carried explicitly in the state
records.
-/

/-- Embeds `IRemoteTunnelAccount` as used by `remoteTunnelService.ts`:
the two fields read by the service are `authenticationProviderId` and
`token` (line 81 and line 106). -/
structure Account where
  authenticationProviderId : String
  token : String
deriving DecidableEq, Repr

/-- Status of the child process owned by one `runCodeTunneCommand`
operation: `live` after `spawn`, `signaled` once `tunnelProcess.kill()` was
issued by the cancellation listener (line 142), `dead` once the `exit` or
`error` event fired (the handlers on lines 164-177 set the local
`tunnelProcess` variable to `undefined`). -/
inductive PStatus where
  | live
  | signaled
  | dead
deriving DecidableEq, Repr

/-- Which command line a `runCodeTunneCommand` call runs: the login command
of line 106 (carrying the account whose provider id and token are passed as
arguments) or the serve command of line 116. -/
inductive OpKind where
  | login (account : Account)
  | serve
deriving DecidableEq, Repr

/-- One `CancelablePromise<void>` produced by `runCodeTunneCommand`,
identified by a generation number `id`.  `cancelled` is the state of its
cancellation token; `settled` is `none` while pending, `some true` once
resolved (the `exit` handler on line 168 calls `resolve()` for every exit
code) and `some false` once rejected (the `error` handler on line 175);
`proc` is the status of the spawned child process. -/
structure Op where
  id : Nat
  kind : OpKind
  cancelled : Bool
  settled : Option Bool
  proc : PStatus
deriving DecidableEq, Repr

/-- Suspended continuations of `updateTunnelProcess`: `awaitLogin i` is the
rest of `updateTunnelProcess` after `await loginProcess` (lines 110-129)
waiting on operation `i`; `serveFinally i` is the `serveCommand.finally`
handler of lines 118-127 waiting on operation `i`. -/
inductive SvcCont where
  | awaitLogin (loginId : Nat)
  | serveFinally (serveId : Nat)
deriving DecidableEq, Repr

/-- Notifications fired by the service, in order: the
`_onDidChangeAccountEmitter` (line 83), `_onTokenFailedEmitter` (line 113)
and `_onTunnelFailedEmitter` (line 125) events. -/
inductive Notif where
  | accountChanged (account : Option Account)
  | tokenFailed
  | tunnelFailed
deriving DecidableEq, Repr

/-- Whole state of one `RemoteTunnelService` instance: the `_account` and
`_tunnelProcess` fields, a fresh-id counter for operations, the record of
every operation created so far, the pending continuations, and the list of
notifications fired so far. -/
structure SvcState where
  account : Option Account
  tunnelProcess : Option Nat
  nextId : Nat
  ops : List Op
  conts : List SvcCont
  notifs : List Notif
deriving DecidableEq, Repr

/-- Looks up the operation record with identity `i`. -/
def findOp (ops : List Op) (i : Nat) : Option Op :=
  ops.find? (fun o => decide (o.id = i))

/-- Updates the operation record with identity `i` in place. -/
def setOp (ops : List Op) (i : Nat) (f : Op → Op) : List Op :=
  ops.map (fun o => if o.id = i then f o else o)

/-- Embeds `this._tunnelProcess.cancel()` (lines 100 and 68).

Modelled from the spec: `createCancelablePromise` lives in
`vs/base/common/async`, which is not among the sources; following the
specification of the CancelableOperation primitive (cancel flips the token,
cancellation is cooperative, the wrapped work kills its child process when
cancellation fires and then settles through that process's exit), `cancel`
flips the token and runs the `token.onCancellationRequested` listener of
lines 139-144 synchronously: if the child process is still live it is
signaled (`tunnelProcess.kill()`); the operation itself settles later, when
the environment delivers the killed process's `exit` event. -/
def cancelOp (s : SvcState) (i : Nat) : SvcState :=
  { s with ops := setOp s.ops i (fun o =>
      { o with cancelled := true,
               proc := if o.proc = PStatus.live then PStatus.signaled else o.proc }) }

/-- Embeds the condition of line 81:
`account && this._account ? account.token !== this._account.token ||
account.authenticationProviderId !== this._account.authenticationProviderId
: account !== this._account`.  When both accounts are present their two
fields are compared; otherwise strict object inequality reduces to: equal
exactly when both are absent. -/
def accountsDiffer : Option Account → Option Account → Bool
  | some a, some b =>
      decide (a.token ≠ b.token) || decide (a.authenticationProviderId ≠ b.authenticationProviderId)
  | none, none => false
  | _, _ => true

/-- Embeds a call of `runCodeTunneCommand` (lines 132-180): a fresh
cancelable operation is created with a fresh identity and its child process
is spawned.  The spawn on line 147 / line 151 is unconditional: the early
`resolve()` of lines 135-137 is not followed by a `return`, so even a
pre-cancelled token would not prevent the spawn (see
`runCodeTunneCommandStart` below); in the supervisor's own call sites the
token is freshly created and never cancelled at this point. -/
def runCodeTunneCommand (s : SvcState) (kind : OpKind) : SvcState :=
  { s with
      ops := s.ops ++ [{ id := s.nextId, kind := kind, cancelled := false,
                         settled := none, proc := PStatus.live }],
      nextId := s.nextId + 1 }

/-- Embeds the synchronous outcome of the promise executor body of
`runCodeTunneCommand` (lines 134-152) as a function of whether the
cancellation token is already cancelled on entry: line 135 checks
`token.isCancellationRequested` and calls `resolve()`, but does not return,
so the `spawn` on line 147 (development) or line 151 (packaged) runs in
either case. -/
structure RunCommandStart where
  earlyResolved : Bool
  processSpawned : Bool
deriving DecidableEq, Repr

/-- Synchronous body of the `runCodeTunneCommand` executor: `earlyResolved`
records whether line 136 ran; `processSpawned` records whether a child
process was spawned, which lines 145-152 do unconditionally. -/
def runCodeTunneCommandStart (tokenCancelled : Bool) : RunCommandStart :=
  { earlyResolved := tokenCancelled, processSpawned := true }

/-- Embeds the synchronous part of `updateTunnelProcess` (lines 98-107):
cancel the current operation if any and clear the slot (lines 99-102);
stop if there is no account (lines 103-105); otherwise start the login
operation, store it in `_tunnelProcess` (lines 106-107) and suspend at
`await loginProcess` (line 109), which is recorded as an `awaitLogin`
continuation. -/
def updateTunnelProcess (s : SvcState) : SvcState :=
  let s1 :=
    match s.tunnelProcess with
    | some i => { cancelOp s i with tunnelProcess := none }
    | none => s
  match s1.account with
  | none => s1
  | some acct =>
      let loginId := s1.nextId
      let s2 := runCodeTunneCommand s1 (OpKind.login acct)
      { s2 with tunnelProcess := some loginId, conts := s2.conts ++ [SvcCont.awaitLogin loginId] }

/-- Embeds `updateAccount` (lines 79-96): when the new account differs from
the stored one per the condition of line 81, store it, fire the
account-changed notification and run `updateTunnelProcess`; otherwise do
nothing. -/
def updateAccount (s : SvcState) (account : Option Account) : SvcState :=
  if accountsDiffer account s.account then
    updateTunnelProcess
      { s with account := account, notifs := s.notifs ++ [Notif.accountChanged account] }
  else s

/-- Embeds the continuation of `updateTunnelProcess` after
`await loginProcess` (lines 108-129): on rejection the catch block of
lines 110-114 clears `_tunnelProcess` and fires the token-failed
notification; then, if `_tunnelProcess` still refers to this login
operation (line 115), the serve operation is started, stored, and its
`finally` handler is attached (lines 116-127). -/
def runAwaitLogin (s : SvcState) (loginId : Nat) (rejected : Bool) : SvcState :=
  let s1 :=
    if rejected then
      { s with tunnelProcess := none, notifs := s.notifs ++ [Notif.tokenFailed] }
    else s
  if s1.tunnelProcess = some loginId then
    let serveId := s1.nextId
    let s2 := runCodeTunneCommand s1 OpKind.serve
    { s2 with tunnelProcess := some serveId, conts := s2.conts ++ [SvcCont.serveFinally serveId] }
  else s1

/-- Embeds the `serveCommand.finally` handler (lines 118-127): only if the
settled serve operation is still the stored `_tunnelProcess` (reference
identity check of line 119), clear the slot, clear the account and fire the
tunnel-failed notification. -/
def runServeFinally (s : SvcState) (serveId : Nat) : SvcState :=
  if s.tunnelProcess = some serveId then
    { s with tunnelProcess := none, account := none,
             notifs := s.notifs ++ [Notif.tunnelFailed] }
  else s

/-- Identity of the operation a continuation waits on. -/
def contOpId : SvcCont → Nat
  | SvcCont.awaitLogin i => i
  | SvcCont.serveFinally i => i

/-- Runs one pending continuation with the settlement outcome of the
operation it waits on (`resolvedOk = false` means the promise rejected). -/
def runCont (s : SvcState) (c : SvcCont) (resolvedOk : Bool) : SvcState :=
  match c with
  | SvcCont.awaitLogin i => runAwaitLogin s i (!resolvedOk)
  | SvcCont.serveFinally i => runServeFinally s i

/-- Settles operation `i`: its record is marked settled and its process
dead, and every continuation waiting on `i` is removed from the pending
list and run — this is the promise machinery delivering the settlement to
the suspended `await` (line 109) and `finally` (line 118) sites. -/
def settleOp (s : SvcState) (i : Nat) (resolvedOk : Bool) : SvcState :=
  let s1 := { s with
    ops := setOp s.ops i (fun o => { o with settled := some resolvedOk, proc := PStatus.dead }) }
  let waiting := s1.conts.filter (fun c => decide (contOpId c = i))
  let s2 := { s1 with conts := s1.conts.filter (fun c => decide (¬ contOpId c = i)) }
  waiting.foldl (fun st c => runCont st c resolvedOk) s2

/-- An `exit` or `error` event of operation `i`'s process is deliverable
only while the operation is unsettled and its process has not already
emitted `exit` or `error` (the handlers of lines 164-177 are guarded by the
local `tunnelProcess` variable, which the first of them clears). -/
def canSettle (s : SvcState) (i : Nat) : Bool :=
  match findOp s.ops i with
  | some o => o.settled.isNone && decide (¬ o.proc = PStatus.dead)
  | none => false

/-- Events driving one `RemoteTunnelService` instance: an external
`updateAccount` call, the `exit` event of operation `i`'s child process
with an exit code (the handler of lines 164-170 calls `resolve()` for every
code), or the `error` event of operation `i`'s child process (the handler
of lines 171-177 calls `reject()`); `error` can be delivered for a live or
an already-signaled process (for example a spawn failure delivered after a
kill attempt), never for a dead one. -/
inductive Event where
  | callUpdateAccount (account : Option Account)
  | procExit (i : Nat) (code : Int)
  | procError (i : Nat)
deriving DecidableEq, Repr

/-- One step of the event-driven execution; undeliverable process events
are ignored. -/
def step (s : SvcState) : Event → SvcState
  | Event.callUpdateAccount a => updateAccount s a
  | Event.procExit i _ => if canSettle s i then settleOp s i true else s
  | Event.procError i => if canSettle s i then settleOp s i false else s

/-- State of a freshly constructed `RemoteTunnelService` (lines 49-51: no
account, no tunnel process). -/
def initState : SvcState :=
  { account := none, tunnelProcess := none, nextId := 0, ops := [], conts := [], notifs := [] }

/-- Runs an event trace from the initial state. -/
def run (events : List Event) : SvcState :=
  events.foldl step initState

/-- Number of live (spawned, not yet signaled, not yet exited) child
processes attributable to the supervisor. -/
def liveCount (s : SvcState) : Nat :=
  (s.ops.filter (fun o => decide (o.proc = PStatus.live))).length

/-- Identity of accounts as the specification words it: both absent, or
both present with equal provider ids and equal tokens. -/
def identityEq : Option Account → Option Account → Bool
  | none, none => true
  | some a, some b =>
      decide (a.authenticationProviderId = b.authenticationProviderId) && decide (a.token = b.token)
  | _, _ => false

/-- Identity-equal accounts do not differ under the condition of line 81. -/
theorem accountsDiffer_eq_false_of_identityEq (a b : Option Account)
    (h : identityEq a b = true) : accountsDiffer a b = false := by
  cases a <;> cases b <;> simp_all [identityEq, accountsDiffer]

/-- The line-81 condition never fires when the new account equals the
stored one. -/
theorem accountsDiffer_self (a : Option Account) : accountsDiffer a a = false := by
  cases a <;> simp [accountsDiffer]

/-- `updateTunnelProcess` never writes the `_account` field. -/
theorem updateTunnelProcess_account (s : SvcState) :
    (updateTunnelProcess s).account = s.account := by
  unfold updateTunnelProcess
  cases htp : s.tunnelProcess <;> cases hac : s.account <;>
    simp [htp, hac, cancelOp, runCodeTunneCommand]

/-- When the line-81 condition does not fire, `updateAccount` returns the
state untouched. -/
theorem updateAccount_noop (s : SvcState) (a : Option Account)
    (h : accountsDiffer a s.account = false) : updateAccount s a = s := by
  simp [updateAccount, h]

/-- `updateTunnelProcess` never writes the notification log. -/
theorem updateTunnelProcess_notifs (s : SvcState) :
    (updateTunnelProcess s).notifs = s.notifs := by
  unfold updateTunnelProcess
  cases htp : s.tunnelProcess <;> cases hac : s.account <;>
    simp [htp, hac, cancelOp, runCodeTunneCommand]

/-- Concrete github account with token `t1`. -/
def acctGithub1 : Account := { authenticationProviderId := "github", token := "t1" }

/-- Concrete github account with token `t2`. -/
def acctGithub2 : Account := { authenticationProviderId := "github", token := "t2" }

/-- Concrete github account with token `t3`. -/
def acctGithub3 : Account := { authenticationProviderId := "github", token := "t3" }

/-- Event trace exhibiting two simultaneously live child processes: the
first login operation is superseded by a second account update (which
cancels it), then its pending `error` event is delivered — the catch block
of lines 110-114 clears `_tunnelProcess` without checking that the rejected
login is still the active operation, so the still-live second login is
orphaned; the third account update then finds no operation to cancel and
spawns a third process while the second one is still live. -/
def doubleLiveTrace : List Event :=
  [Event.callUpdateAccount (some acctGithub1),
   Event.callUpdateAccount (some acctGithub2),
   Event.procError 0,
   Event.callUpdateAccount (some acctGithub3)]

/-- C5: calling `updateAccount` with an account identity-equal to the
stored one (both absent, or both present with equal provider id and token)
is a no-op — the state, including the stored account, the operation
records (hence no cancel/restart cycle) and the notification log, is
unchanged; consequently `updateAccount` is idempotent, so two consecutive
calls with the same value trigger at most one cancel/restart cycle. -/
theorem updateAccount_idempotent (s : SvcState) (a : Option Account) :
    (identityEq a s.account = true → updateAccount s a = s) ∧
    updateAccount (updateAccount s a) a = updateAccount s a := by
  constructor
  · intro h
    exact updateAccount_noop s a (accountsDiffer_eq_false_of_identityEq a s.account h)
  · by_cases hd : accountsDiffer a s.account = true
    · have hacc : (updateAccount s a).account = a := by
        simp [updateAccount, hd, updateTunnelProcess_account]
      have hnd : accountsDiffer a (updateAccount s a).account = false := by
        rw [hacc]; exact accountsDiffer_self a
      exact updateAccount_noop (updateAccount s a) a hnd
    · have h0 : updateAccount s a = s := updateAccount_noop s a (by simpa using hd)
      rw [h0]; exact h0

/-- Witness for C5 at a concrete state and account. -/
theorem updateAccount_idempotent_witness :
    updateAccount (run [Event.callUpdateAccount (some { authenticationProviderId := "github", token := "t1" })])
        (some { authenticationProviderId := "github", token := "t1" }) =
      run [Event.callUpdateAccount (some { authenticationProviderId := "github", token := "t1" })] :=
  (updateAccount_idempotent _ _).1 (by decide)

/-- C1: the claim fails on the code in two places.  First, the executor
body of `runCodeTunneCommand` checks `token.isCancellationRequested` and
resolves (line 135-137) but does not return, so an invocation whose token
is already cancelled still spawns a process.  Second, along
`doubleLiveTrace` the catch block of lines 110-114 (which, unlike the serve
`finally` handler of line 119, carries no is-this-still-the-active-
operation guard) clears `_tunnelProcess` while a newer login operation is
live; the following `updateAccount` call then finds nothing to cancel and
spawns a further process, leaving two live child processes attributable to
one supervisor instance. -/
theorem remoteTunnel_notAtMostOneLive :
    (runCodeTunneCommandStart true).processSpawned = true ∧
    liveCount (run doubleLiveTrace) = 2 := by
  exact ⟨rfl, by decide⟩

/-- Event trace in which the login process exits with the non-zero code 1
while it is the active operation. -/
def loginExitOneTrace : List Event :=
  [Event.callUpdateAccount (some acctGithub1), Event.procExit 0 1]

/-- C3 counterexample: after the login process exits with code 1, the
`exit` handler of lines 164-170 calls `resolve()` regardless of the exit
code, so the login operation counts as succeeded and the serve phase IS
started — refuting the claim that a non-zero login exit is a login failure
after which serve is not started. -/
theorem loginNonZeroExit_startsServe :
    (run loginExitOneTrace).tunnelProcess = some 1 ∧
    findOp (run loginExitOneTrace).ops 1 =
      some { id := 1, kind := OpKind.serve, cancelled := false,
             settled := none, proc := PStatus.live } := by
  decide

/-- C3 amended: the login phase succeeds exactly when the login process
emits an `exit` event, with any exit code (the handler of line 168 resolves
unconditionally), in which case the serve phase is started; the login phase
fails exactly when the login process emits an `error` event, and only in
that case the serve phase is not started. -/
theorem login_succeeds_iff_exit (s : SvcState) (i : Nat) (acct : Account) (c : Int) (o : Op)
    (hop : findOp s.ops i = some o)
    (hkind : o.kind = OpKind.login acct)
    (hsettled : o.settled = none)
    (hproc : o.proc = PStatus.live)
    (htp : s.tunnelProcess = some i)
    (hconts : s.conts.filter (fun cc => decide (contOpId cc = i)) = [SvcCont.awaitLogin i]) :
    ((step s (Event.procExit i c)).tunnelProcess = some s.nextId ∧
      (step s (Event.procExit i c)).ops =
        setOp s.ops i (fun oo => { oo with settled := some true, proc := PStatus.dead }) ++
          [{ id := s.nextId, kind := OpKind.serve, cancelled := false,
             settled := none, proc := PStatus.live }]) ∧
    ((step s (Event.procError i)).tunnelProcess = none ∧
      (step s (Event.procError i)).ops =
        setOp s.ops i (fun oo => { oo with settled := some false, proc := PStatus.dead })) := by
  have hcan : canSettle s i = true := by
    simp [canSettle, hop, hsettled, hproc]
  constructor
  · simp [step, hcan, settleOp, hconts, runCont, runAwaitLogin, htp, runCodeTunneCommand]
  · simp [step, hcan, settleOp, hconts, runCont, runAwaitLogin, htp, runCodeTunneCommand]

/-- Witness for the amended C3 at a concrete reachable state. -/
theorem login_succeeds_iff_exit_witness :
    ((step (run [Event.callUpdateAccount (some acctGithub1)]) (Event.procExit 0 7)).tunnelProcess =
        some (run [Event.callUpdateAccount (some acctGithub1)]).nextId ∧
      (step (run [Event.callUpdateAccount (some acctGithub1)]) (Event.procExit 0 7)).ops =
        setOp (run [Event.callUpdateAccount (some acctGithub1)]).ops 0
            (fun oo => { oo with settled := some true, proc := PStatus.dead }) ++
          [{ id := (run [Event.callUpdateAccount (some acctGithub1)]).nextId,
             kind := OpKind.serve, cancelled := false,
             settled := none, proc := PStatus.live }]) ∧
    ((step (run [Event.callUpdateAccount (some acctGithub1)]) (Event.procError 0)).tunnelProcess = none ∧
      (step (run [Event.callUpdateAccount (some acctGithub1)]) (Event.procError 0)).ops =
        setOp (run [Event.callUpdateAccount (some acctGithub1)]).ops 0
          (fun oo => { oo with settled := some false, proc := PStatus.dead })) :=
  login_succeeds_iff_exit (run [Event.callUpdateAccount (some acctGithub1)]) 0 acctGithub1 7
    { id := 0, kind := OpKind.login acctGithub1, cancelled := false,
      settled := none, proc := PStatus.live }
    (by decide) (by decide) (by decide) (by decide) (by decide) (by decide)

/-- C4 counterexample: along `loginExitOneTrace` the login process exits
with the non-zero code 1 — per the claim this is a login failure that must
emit the token-failed notification — yet the notification log contains only
the account-changed event, because the `exit` handler of line 168 resolves
the login promise for every exit code and the catch block of lines 110-114
never runs. -/
theorem loginNonZeroExit_noTokenFailed :
    (run loginExitOneTrace).notifs = [Notif.accountChanged (some acctGithub1)] := by
  decide

/-- C4 amended: the token-failed notification is emitted when and only when
the active login operation rejects, i.e. its process emitted the `error`
event: in that case the catch block of lines 110-114 clears the active
operation, fires token-failed and leaves the stored account untouched; an
`exit` of the login process (any code) emits no token-failed, and an
`updateAccount` call — in particular one that cancels the active login —
emits at most the account-changed notification, never token-failed. -/
theorem tokenFailed_iff_login_error (s : SvcState) (i : Nat) (acct : Account) (c : Int) (o : Op)
    (hop : findOp s.ops i = some o)
    (hkind : o.kind = OpKind.login acct)
    (hsettled : o.settled = none)
    (hproc : o.proc = PStatus.live)
    (htp : s.tunnelProcess = some i)
    (hconts : s.conts.filter (fun cc => decide (contOpId cc = i)) = [SvcCont.awaitLogin i]) :
    ((step s (Event.procError i)).notifs = s.notifs ++ [Notif.tokenFailed] ∧
      (step s (Event.procError i)).tunnelProcess = none ∧
      (step s (Event.procError i)).account = s.account) ∧
    (step s (Event.procExit i c)).notifs = s.notifs ∧
    (∀ a : Option Account,
      (updateAccount s a).notifs = s.notifs ∨
      (updateAccount s a).notifs = s.notifs ++ [Notif.accountChanged a]) := by
  have hcan : canSettle s i = true := by
    simp [canSettle, hop, hsettled, hproc]
  refine ⟨?_, ?_, ?_⟩
  · simp [step, hcan, settleOp, hconts, runCont, runAwaitLogin, htp]
  · simp [step, hcan, settleOp, hconts, runCont, runAwaitLogin, htp, runCodeTunneCommand]
  · intro a
    by_cases hd : accountsDiffer a s.account = true
    · right
      simp [updateAccount, hd, updateTunnelProcess_notifs]
    · left
      simp [updateAccount_noop s a (by simpa using hd)]

/-- Witness for the amended C4 at a concrete reachable state. -/
theorem tokenFailed_iff_login_error_witness :
    (((step (run [Event.callUpdateAccount (some acctGithub1)]) (Event.procError 0)).notifs =
        (run [Event.callUpdateAccount (some acctGithub1)]).notifs ++ [Notif.tokenFailed] ∧
      (step (run [Event.callUpdateAccount (some acctGithub1)]) (Event.procError 0)).tunnelProcess = none ∧
      (step (run [Event.callUpdateAccount (some acctGithub1)]) (Event.procError 0)).account =
        (run [Event.callUpdateAccount (some acctGithub1)]).account) ∧
    (step (run [Event.callUpdateAccount (some acctGithub1)]) (Event.procExit 0 9)).notifs =
      (run [Event.callUpdateAccount (some acctGithub1)]).notifs ∧
    (∀ a : Option Account,
      (updateAccount (run [Event.callUpdateAccount (some acctGithub1)]) a).notifs =
        (run [Event.callUpdateAccount (some acctGithub1)]).notifs ∨
      (updateAccount (run [Event.callUpdateAccount (some acctGithub1)]) a).notifs =
        (run [Event.callUpdateAccount (some acctGithub1)]).notifs ++ [Notif.accountChanged a])) :=
  tokenFailed_iff_login_error (run [Event.callUpdateAccount (some acctGithub1)]) 0 acctGithub1 9
    { id := 0, kind := OpKind.login acctGithub1, cancelled := false,
      settled := none, proc := PStatus.live }
    (by decide) (by decide) (by decide) (by decide) (by decide) (by decide)

/-- C2: if the serve operation settles while it is still the stored
`_tunnelProcess` (identity check of line 119), the `finally` handler clears
the active operation, clears the stored account and fires the tunnel-failed
notification exactly once (lines 120-125); a subsequent `updateAccount`
with the previously stored values is then a change (the stored account is
absent) that fires account-changed and restarts a login operation.  If the
settled serve operation is no longer the stored one, the account, the
active-operation slot and the notification log are all unchanged. -/
theorem serve_unexpected_exit (s : SvcState) (k : Nat) (c : Int) (o : Op)
    (hop : findOp s.ops k = some o)
    (hkind : o.kind = OpKind.serve)
    (hsettled : o.settled = none)
    (hnd : ¬ o.proc = PStatus.dead)
    (hconts : s.conts.filter (fun cc => decide (contOpId cc = k)) = [SvcCont.serveFinally k]) :
    (s.tunnelProcess = some k → o.cancelled = false → ∀ acct : Account, s.account = some acct →
      (step s (Event.procExit k c)).account = none ∧
      (step s (Event.procExit k c)).tunnelProcess = none ∧
      (step s (Event.procExit k c)).notifs = s.notifs ++ [Notif.tunnelFailed] ∧
      (updateAccount (step s (Event.procExit k c)) (some acct)).notifs =
        (step s (Event.procExit k c)).notifs ++ [Notif.accountChanged (some acct)] ∧
      (updateAccount (step s (Event.procExit k c)) (some acct)).tunnelProcess =
        some (step s (Event.procExit k c)).nextId ∧
      (updateAccount (step s (Event.procExit k c)) (some acct)).ops =
        (step s (Event.procExit k c)).ops ++
          [{ id := (step s (Event.procExit k c)).nextId, kind := OpKind.login acct,
             cancelled := false, settled := none, proc := PStatus.live }]) ∧
    (¬ s.tunnelProcess = some k →
      (step s (Event.procExit k c)).account = s.account ∧
      (step s (Event.procExit k c)).tunnelProcess = s.tunnelProcess ∧
      (step s (Event.procExit k c)).notifs = s.notifs) := by
  have hcan : canSettle s k = true := by
    simp [canSettle, hop, hsettled, hnd]
  constructor
  · intro htp _hcanc acct _hacct
    have hstep : step s (Event.procExit k c) =
        { account := none, tunnelProcess := none, nextId := s.nextId,
          ops := setOp s.ops k (fun oo => { oo with settled := some true, proc := PStatus.dead }),
          conts := s.conts.filter (fun cc => decide (¬ contOpId cc = k)),
          notifs := s.notifs ++ [Notif.tunnelFailed] } := by
      simp [step, hcan, settleOp, hconts, runCont, runServeFinally, htp]
    rw [hstep]
    simp [updateAccount, accountsDiffer, updateTunnelProcess, runCodeTunneCommand]
  · intro hne
    simp [step, hcan, settleOp, hconts, runCont, runServeFinally, hne]

/-- Event trace reaching a state whose serve operation is active: the login
process exited with code 0, after which the serve operation was started. -/
def serveActiveTrace : List Event :=
  [Event.callUpdateAccount (some acctGithub1), Event.procExit 0 0]

/-- Event trace reaching a state whose serve operation has been cancelled
and superseded (account cleared) but has not yet settled. -/
def serveStaleTrace : List Event :=
  [Event.callUpdateAccount (some acctGithub1), Event.procExit 0 0,
   Event.callUpdateAccount none]

/-- Witness for C2 at two concrete reachable states: a serve process
exiting with code 13 while active, and one exiting with code 5 after having
been superseded. -/
theorem serve_unexpected_exit_witness :
    ((step (run serveActiveTrace) (Event.procExit 1 13)).account = none ∧
      (step (run serveActiveTrace) (Event.procExit 1 13)).tunnelProcess = none ∧
      (step (run serveActiveTrace) (Event.procExit 1 13)).notifs =
        (run serveActiveTrace).notifs ++ [Notif.tunnelFailed] ∧
      (updateAccount (step (run serveActiveTrace) (Event.procExit 1 13)) (some acctGithub1)).notifs =
        (step (run serveActiveTrace) (Event.procExit 1 13)).notifs ++
          [Notif.accountChanged (some acctGithub1)] ∧
      (updateAccount (step (run serveActiveTrace) (Event.procExit 1 13)) (some acctGithub1)).tunnelProcess =
        some (step (run serveActiveTrace) (Event.procExit 1 13)).nextId ∧
      (updateAccount (step (run serveActiveTrace) (Event.procExit 1 13)) (some acctGithub1)).ops =
        (step (run serveActiveTrace) (Event.procExit 1 13)).ops ++
          [{ id := (step (run serveActiveTrace) (Event.procExit 1 13)).nextId,
             kind := OpKind.login acctGithub1,
             cancelled := false, settled := none, proc := PStatus.live }]) ∧
    ((step (run serveStaleTrace) (Event.procExit 1 5)).account = (run serveStaleTrace).account ∧
      (step (run serveStaleTrace) (Event.procExit 1 5)).tunnelProcess =
        (run serveStaleTrace).tunnelProcess ∧
      (step (run serveStaleTrace) (Event.procExit 1 5)).notifs = (run serveStaleTrace).notifs) :=
  ⟨(serve_unexpected_exit (run serveActiveTrace) 1 13
      { id := 1, kind := OpKind.serve, cancelled := false, settled := none, proc := PStatus.live }
      (by decide) rfl rfl (by decide) (by decide)).1 (by decide) rfl acctGithub1 (by decide),
   (serve_unexpected_exit (run serveStaleTrace) 1 5
      { id := 1, kind := OpKind.serve, cancelled := true, settled := none, proc := PStatus.signaled }
      (by decide) rfl rfl (by decide) (by decide)).2 (by decide)⟩

/-- Boolean prefix test on character lists (pattern first). -/
def startsWithChars : List Char → List Char → Bool
  | [], _ => true
  | _ :: _, [] => false
  | p :: ps, c :: cs => decide (p = c) && startsWithChars ps cs

/-- Boolean substring scan on character lists, leftmost-first. -/
def containsChars (needle : List Char) : List Char → Bool
  | [] => startsWithChars needle []
  | c :: cs => startsWithChars needle (c :: cs) || containsChars needle cs

/-- Embeds JavaScript `hay.indexOf(needle) !== -1`. -/
def containsSubstr (hay needle : String) : Bool :=
  containsChars needle.toList hay.toList

/-- Literal part of the readiness pattern `/Web UI available at (.+)/` of
the smoke-test launcher (`waitForEndpoint`). -/
def markerChars : List Char := "Web UI available at ".toList

/-- Characters matched by `.` in a JavaScript regular expression without
the dotAll flag: everything except the four line terminators. -/
def dotChar (c : Char) : Bool :=
  decide (¬ c = '\n') && decide (¬ c = '\r') && decide (¬ c = ' ') && decide (¬ c = ' ')

/-- Leftmost match of `/Web UI available at (.+)/`: at the first position
where the literal marker occurs followed by at least one `.`-matching
character, the greedy capturing group takes the maximal run of
`.`-matching characters. -/
def readinessMatchAux : List Char → Option (List Char)
  | [] => none
  | c :: cs =>
    if startsWithChars markerChars (c :: cs) then
      let cap := ((c :: cs).drop markerChars.length).takeWhile dotChar
      if cap.isEmpty then readinessMatchAux cs else some cap
    else readinessMatchAux cs

/-- Embeds `data.toString('ascii').match(/Web UI available at (.+)/)`,
returning the first capturing group of the leftmost match. -/
def readinessMatch (s : String) : Option String :=
  (readinessMatchAux s.toList).map (fun l => String.mk l)

/-- Stream and exit events of the watched server process, as seen by the
listeners `waitForEndpoint` installs: the function subscribes to `stdout`
and `stderr` data only — it installs no `exit` listener, so `procExited`
reaches no handler. -/
inductive SrvEvent where
  | stdoutData (data : String)
  | stderrData (data : String)
  | procExited (code : Int)
deriving DecidableEq, Repr

/-- Settlement of the readiness promise: resolved with the captured
endpoint, or rejected with the stderr chunk wrapped in an error. -/
inductive Settle where
  | resolved (endpoint : String)
  | rejected (err : String)
deriving DecidableEq, Repr

/-- State of one `waitForEndpoint` promise: the `endpointFound` flag, the
single-settlement state of the JavaScript promise (`resolve`/`reject`
after the first settlement are ignored), and the diagnostics log. -/
structure WEState where
  endpointFound : Bool
  settled : Option Settle
  log : List String
deriving DecidableEq, Repr

/-- JavaScript promise settlement: only the first `resolve`/`reject` call
takes effect. -/
def trySettle (st : WEState) (x : Settle) : WEState :=
  match st.settled with
  | none => { st with settled := some x }
  | some _ => st

/-- Embeds the two stream listeners of `waitForEndpoint` (lines 157-178):
a stdout chunk is logged until the endpoint is found, then matched against
the readiness pattern, a match setting `endpointFound` and resolving; a
stderr chunk is logged until the endpoint is found and rejects whenever it
contains `EADDRINUSE`; a process exit reaches no listener because none is
installed. -/
def waitForEndpointStep (st : WEState) : SrvEvent → WEState
  | SrvEvent.stdoutData d =>
    let st1 := if st.endpointFound then st
               else { st with log := st.log ++ ["[server] stdout: " ++ d] }
    match readinessMatch d with
    | some ep => trySettle { st1 with endpointFound := true } (Settle.resolved ep)
    | none => st1
  | SrvEvent.stderrData d =>
    let st1 := if st.endpointFound then st
               else { st with log := st.log ++ ["[server] stderr: " ++ d] }
    if containsSubstr d "EADDRINUSE" then trySettle st1 (Settle.rejected d) else st1
  | SrvEvent.procExited _ => st

/-- State of the promise right after `new Promise` runs the executor. -/
def waitForEndpointInit : WEState :=
  { endpointFound := false, settled := none, log := [] }

/-- Settlement of the `waitForEndpoint` promise after a trace of process
events (`none` = the promise is still pending). -/
def waitForEndpoint (events : List SrvEvent) : Option Settle :=
  (events.foldl waitForEndpointStep waitForEndpointInit).settled

/-- One step never changes an already-settled promise. -/
theorem waitForEndpointStep_settled (st : WEState) (x : Settle) (ev : SrvEvent)
    (h : st.settled = some x) : (waitForEndpointStep st ev).settled = some x := by
  cases ev with
  | stdoutData d =>
    unfold waitForEndpointStep
    cases hm : readinessMatch d <;>
      by_cases hf : st.endpointFound <;> simp [hm, hf, trySettle, h]
  | stderrData d =>
    unfold waitForEndpointStep
    by_cases hc : containsSubstr d "EADDRINUSE" <;>
      by_cases hf : st.endpointFound <;> simp [hc, hf, trySettle, h]
  | procExited c => simpa [waitForEndpointStep] using h

/-- A settled promise stays settled with the same outcome under any
further events. -/
theorem waitForEndpoint_stable (evs : List SrvEvent) (st : WEState) (x : Settle)
    (h : st.settled = some x) : (evs.foldl waitForEndpointStep st).settled = some x := by
  induction evs generalizing st with
  | nil => simpa
  | cons e rest ih => exact ih _ (waitForEndpointStep_settled st x e h)

/-- Events whose stdout payload does not match the readiness pattern. -/
def stdoutNoMatch : SrvEvent → Prop
  | SrvEvent.stdoutData d => readinessMatch d = none
  | SrvEvent.stderrData _ => True
  | SrvEvent.procExited _ => True

instance stdoutNoMatchDecidable (ev : SrvEvent) : Decidable (stdoutNoMatch ev) :=
  match ev with
  | SrvEvent.stdoutData d => inferInstanceAs (Decidable (readinessMatch d = none))
  | SrvEvent.stderrData _ => inferInstanceAs (Decidable True)
  | SrvEvent.procExited _ => inferInstanceAs (Decidable True)

/-- Over events with no readiness match on stdout, the promise is pending
or rejected, never resolved. -/
theorem waitForEndpoint_no_resolve (l : List SrvEvent) (st : WEState)
    (hl : ∀ ev ∈ l, stdoutNoMatch ev)
    (h : st.settled = none ∨ ∃ e, st.settled = some (Settle.rejected e)) :
    (l.foldl waitForEndpointStep st).settled = none ∨
      ∃ e, (l.foldl waitForEndpointStep st).settled = some (Settle.rejected e) := by
  induction l generalizing st with
  | nil => simpa
  | cons ev rest ih =>
    rw [List.foldl_cons]
    apply ih
    · intro e he
      exact hl e (List.mem_cons_of_mem _ he)
    · cases ev with
      | stdoutData d =>
        have hm : readinessMatch d = none := hl _ (List.mem_cons_self _ _)
        by_cases hf : st.endpointFound <;> simp [waitForEndpointStep, hm, hf] <;> exact h
      | stderrData d =>
        rcases h with h0 | ⟨e, he⟩
        · by_cases hc : containsSubstr d "EADDRINUSE" <;>
            by_cases hf : st.endpointFound <;>
            simp [waitForEndpointStep, hc, hf, trySettle, h0]
        · exact Or.inr ⟨e, waitForEndpointStep_settled st _ _ he⟩
      | procExited c => simpa [waitForEndpointStep] using h

/-- C6: the claim fails on the code.  `waitForEndpoint` installs listeners
on `stdout` and `stderr` only; the required `exit` listener is missing, so
when the process exits before either the readiness marker or `EADDRINUSE`
appeared, the readiness promise remains pending forever instead of failing
with a process-exited error. -/
theorem waitForEndpoint_pending_after_exit :
    waitForEndpoint [SrvEvent.stdoutData "Starting server", SrvEvent.procExited 1] = none := by
  decide

/-- C7: if a stderr chunk containing `EADDRINUSE` arrives while no stdout
chunk so far matched the readiness pattern, the promise ends rejected, and
whatever events follow (including a later readiness marker) cannot change
that; in general an already-settled promise keeps its first settlement
under any further stream content. -/
theorem readiness_race_reject_wins :
    (∀ (l r : List SrvEvent) (e : String),
      (∀ ev ∈ l, stdoutNoMatch ev) → containsSubstr e "EADDRINUSE" = true →
      ∃ err, waitForEndpoint (l ++ SrvEvent.stderrData e :: r) = some (Settle.rejected err)) ∧
    (∀ (evs : List SrvEvent) (st : WEState) (x : Settle), st.settled = some x →
      (evs.foldl waitForEndpointStep st).settled = some x) := by
  constructor
  · intro l r e hl he
    have hP := waitForEndpoint_no_resolve l waitForEndpointInit hl (Or.inl rfl)
    have hstep : ∃ err,
        (waitForEndpointStep (l.foldl waitForEndpointStep waitForEndpointInit)
          (SrvEvent.stderrData e)).settled = some (Settle.rejected err) := by
      rcases hP with h0 | ⟨err, herr⟩
      · refine ⟨e, ?_⟩
        by_cases hf : (l.foldl waitForEndpointStep waitForEndpointInit).endpointFound <;>
          simp [waitForEndpointStep, he, hf, trySettle, h0]
      · exact ⟨err, waitForEndpointStep_settled _ _ _ herr⟩
    rcases hstep with ⟨err, herr⟩
    refine ⟨err, ?_⟩
    unfold waitForEndpoint
    rw [List.foldl_append, List.foldl_cons]
    exact waitForEndpoint_stable r _ _ herr
  · exact fun evs st x h => waitForEndpoint_stable evs st x h

/-- Witness for C7: a rejected race at a concrete trace (the readiness
marker arriving after the conflict is ignored), and stability at a
concrete settled state. -/
theorem readiness_race_reject_wins_witness :
    (∃ err, waitForEndpoint
        ([SrvEvent.stdoutData "booting"] ++ SrvEvent.stderrData "Error: listen EADDRINUSE :::9000" ::
          [SrvEvent.stdoutData "Web UI available at http://localhost:9001"]) =
      some (Settle.rejected err)) ∧
    (([SrvEvent.stderrData "EADDRINUSE"].foldl waitForEndpointStep
        { endpointFound := true, settled := some (Settle.resolved "http://h"), log := [] }).settled =
      some (Settle.resolved "http://h")) :=
  ⟨readiness_race_reject_wins.1 [SrvEvent.stdoutData "booting"]
      [SrvEvent.stdoutData "Web UI available at http://localhost:9001"]
      "Error: listen EADDRINUSE :::9000" (by decide) (by decide),
   readiness_race_reject_wins.2 [SrvEvent.stderrData "EADDRINUSE"]
      { endpointFound := true, settled := some (Settle.resolved "http://h"), log := [] }
      (Settle.resolved "http://h") rfl⟩

/-- Events that neither match the readiness pattern on stdout nor carry
`EADDRINUSE` on stderr. -/
def cleanBefore : SrvEvent → Prop
  | SrvEvent.stdoutData d => readinessMatch d = none
  | SrvEvent.stderrData d => containsSubstr d "EADDRINUSE" = false
  | SrvEvent.procExited _ => True

instance cleanBeforeDecidable (ev : SrvEvent) : Decidable (cleanBefore ev) :=
  match ev with
  | SrvEvent.stdoutData d => inferInstanceAs (Decidable (readinessMatch d = none))
  | SrvEvent.stderrData d => inferInstanceAs (Decidable (containsSubstr d "EADDRINUSE" = false))
  | SrvEvent.procExited _ => inferInstanceAs (Decidable True)

/-- Over clean events the promise stays pending. -/
theorem waitForEndpoint_clean_pending (l : List SrvEvent) (st : WEState)
    (hl : ∀ ev ∈ l, cleanBefore ev) (h : st.settled = none) :
    (l.foldl waitForEndpointStep st).settled = none := by
  induction l generalizing st with
  | nil => simpa
  | cons ev rest ih =>
    rw [List.foldl_cons]
    apply ih
    · intro e he
      exact hl e (List.mem_cons_of_mem _ he)
    · cases ev with
      | stdoutData d =>
        have hm : readinessMatch d = none := hl _ (List.mem_cons_self _ _)
        by_cases hf : st.endpointFound <;> simp [waitForEndpointStep, hm, hf, h]
      | stderrData d =>
        have hc : containsSubstr d "EADDRINUSE" = false := hl _ (List.mem_cons_self _ _)
        by_cases hf : st.endpointFound <;> simp [waitForEndpointStep, hc, hf, h]
      | procExited c => simpa [waitForEndpointStep] using h

/-- C8: the first stdout chunk matching the readiness pattern resolves the
promise with the first capturing group, whatever comes later; in
particular the chunk `Web UI available at http://localhost:9001` resolves
it with `http://localhost:9001`. -/
theorem readiness_marker_resolves :
    (∀ (l r : List SrvEvent) (d ep : String),
      (∀ ev ∈ l, cleanBefore ev) → readinessMatch d = some ep →
      waitForEndpoint (l ++ SrvEvent.stdoutData d :: r) = some (Settle.resolved ep)) ∧
    waitForEndpoint [SrvEvent.stdoutData "Web UI available at http://localhost:9001"] =
      some (Settle.resolved "http://localhost:9001") := by
  constructor
  · intro l r d ep hl hm
    have h0 : (l.foldl waitForEndpointStep waitForEndpointInit).settled = none :=
      waitForEndpoint_clean_pending l waitForEndpointInit hl rfl
    have hstep :
        (waitForEndpointStep (l.foldl waitForEndpointStep waitForEndpointInit)
          (SrvEvent.stdoutData d)).settled = some (Settle.resolved ep) := by
      by_cases hf : (l.foldl waitForEndpointStep waitForEndpointInit).endpointFound <;>
        simp [waitForEndpointStep, hm, hf, trySettle, h0]
    unfold waitForEndpoint
    rw [List.foldl_append, List.foldl_cons]
    exact waitForEndpoint_stable r _ _ hstep
  · decide

/-- Witness for C8: a concrete prefix, matching chunk and suffix. -/
theorem readiness_marker_resolves_witness :
    waitForEndpoint
        ([SrvEvent.stderrData "warming up"] ++
          SrvEvent.stdoutData "Web UI available at http://localhost:9001" ::
          [SrvEvent.stderrData "late EADDRINUSE noise"]) =
      some (Settle.resolved "http://localhost:9001") :=
  readiness_marker_resolves.1 [SrvEvent.stderrData "warming up"]
    [SrvEvent.stderrData "late EADDRINUSE noise"]
    "Web UI available at http://localhost:9001" "http://localhost:9001"
    (by decide) (by decide)

/-- Outcome of one `teardown` call: no pid was supplied; the tree-kill
request of attempt `k` (0-based) succeeded; the liveness probe of attempt
`k` showed the process already gone; or all three attempts failed against a
still-alive process and the function gave up with a log. -/
inductive TeardownResult where
  | noPid
  | killed (attempt : Nat)
  | alreadyGone (attempt : Nat)
  | gaveUp
deriving DecidableEq, Repr

/-- Embeds the `while (retries < 3)` loop of `teardown`: `k` attempts are
already behind, `fuel` remain.  `killOk k` tells whether the k-th
`promisify(kill)(serverPid)` request succeeds; `alive k` tells whether the
liveness probe `process.kill(serverPid, 0)` of attempt `k` succeeds
(`false` = it throws because the process no longer exists).  The second
component counts tree-kill requests issued.  Every `catch` of the source is
absorbed here into the branch structure: no path throws. -/
def teardownLoop (killOk alive : Nat → Bool) : Nat → Nat → TeardownResult × Nat
  | k, 0 => (TeardownResult.gaveUp, k)
  | k, fuel + 1 =>
    if killOk k then (TeardownResult.killed k, k + 1)
    else if alive k then teardownLoop killOk alive (k + 1) fuel
    else (TeardownResult.alreadyGone k, k + 1)

/-- Embeds `teardown(serverPid, logger)` of the smoke-test launcher:
`return` immediately when `serverPid` is not a number (no kill request),
otherwise run up to 3 attempts of the tree-kill/probe loop. -/
def teardown (serverPid : Option Int) (killOk alive : Nat → Bool) : TeardownResult × Nat :=
  match serverPid with
  | none => (TeardownResult.noPid, 0)
  | some _ => teardownLoop killOk alive 0 3

/-- The three-attempt loop written out: obtained by unfolding
`teardownLoop` at fuel 3. -/
theorem teardown_some_unfold (p : Int) (killOk alive : Nat → Bool) :
    teardown (some p) killOk alive =
      if killOk 0 then (TeardownResult.killed 0, 1)
      else if alive 0 then
        (if killOk 1 then (TeardownResult.killed 1, 2)
         else if alive 1 then
           (if killOk 2 then (TeardownResult.killed 2, 3)
            else if alive 2 then (TeardownResult.gaveUp, 3)
            else (TeardownResult.alreadyGone 2, 3))
         else (TeardownResult.alreadyGone 1, 2))
      else (TeardownResult.alreadyGone 0, 1) := rfl

/-- C9: `teardown` always settles without throwing (it is a total function
into `TeardownResult × Nat`): with no pid it settles at once issuing no
kill request; when the probe of the first attempt shows the process gone it
settles successfully after a single request; a successful kill request at
attempt `r` stops the loop with exactly `r + 1` requests issued; and after
three failed attempts against a still-alive process it gives up, having
issued exactly 3 requests, and still settles. -/
theorem teardown_settles (p : Int) (killOk alive : Nat → Bool) (r : Nat) :
    (∀ f g : Nat → Bool, teardown none f g = (TeardownResult.noPid, 0)) ∧
    (killOk 0 = false → alive 0 = false →
      teardown (some p) killOk alive = (TeardownResult.alreadyGone 0, 1)) ∧
    (r < 3 → (∀ i, i < r → killOk i = false ∧ alive i = true) → killOk r = true →
      teardown (some p) killOk alive = (TeardownResult.killed r, r + 1)) ∧
    ((∀ i, i < 3 → killOk i = false ∧ alive i = true) →
      teardown (some p) killOk alive = (TeardownResult.gaveUp, 3)) := by
  refine ⟨fun f g => rfl, ?_, ?_, ?_⟩
  · intro h0 h1
    rw [teardown_some_unfold]
    simp [h0, h1]
  · intro hr hprev hk
    rw [teardown_some_unfold]
    interval_cases r
    · simp [hk]
    · have h0 := hprev 0 (by omega)
      simp [h0.1, h0.2, hk]
    · have h0 := hprev 0 (by omega)
      have h1 := hprev 1 (by omega)
      simp [h0.1, h0.2, h1.1, h1.2, hk]
  · intro h
    have h0 := h 0 (by omega)
    have h1 := h 1 (by omega)
    have h2 := h 2 (by omega)
    rw [teardown_some_unfold]
    simp [h0.1, h0.2, h1.1, h1.2, h2.1, h2.2]

/-- Witness for C9: the four behaviours at concrete pids and concrete
kill/probe outcome functions. -/
theorem teardown_settles_witness :
    teardown none (fun _ => true) (fun _ => true) = (TeardownResult.noPid, 0) ∧
    teardown (some 42) (fun _ => false) (fun _ => false) = (TeardownResult.alreadyGone 0, 1) ∧
    teardown (some 42) (fun i => decide (i = 1)) (fun _ => true) = (TeardownResult.killed 1, 2) ∧
    teardown (some 42) (fun _ => false) (fun _ => true) = (TeardownResult.gaveUp, 3) :=
  ⟨(teardown_settles 42 (fun _ => true) (fun _ => true) 0).1 (fun _ => true) (fun _ => true),
   (teardown_settles 42 (fun _ => false) (fun _ => false) 0).2.1 rfl rfl,
   (teardown_settles 42 (fun i => decide (i = 1)) (fun _ => true) 1).2.2.1 (by omega)
     (by intro i hi; interval_cases i; exact ⟨rfl, rfl⟩) rfl,
   (teardown_settles 42 (fun _ => false) (fun _ => true) 0).2.2.2
     (by intro i hi; exact ⟨rfl, rfl⟩)⟩

/-- State of one `LoggerMainService`: the base registry of logger
resources and the `loggerResourcesByWindow` resource map.  Resources are
their URI strings; the other `ILoggerResource` fields play no role in
registration or filtering. -/
structure LoggerMainState where
  registered : List String
  loggerResourcesByWindow : List (String × Nat)
deriving DecidableEq, Repr

/-- Lookup in the resource map (`ResourceMap.get`). -/
def resourceMapGet : List (String × Nat) → String → Option Nat
  | [], _ => none
  | p :: rest, r => if p.1 = r then some p.2 else resourceMapGet rest r

/-- Update in the resource map (`ResourceMap.set`): replace the entry for
the key if present, append otherwise. -/
def resourceMapSet : List (String × Nat) → String → Nat → List (String × Nat)
  | [], r, w => [(r, w)]
  | p :: rest, r, w => if p.1 = r then (r, w) :: rest else p :: resourceMapSet rest r w

/-- Removal from the resource map (`ResourceMap.delete`). -/
def resourceMapDelete : List (String × Nat) → String → List (String × Nat)
  | [], _ => []
  | p :: rest, r => if p.1 = r then resourceMapDelete rest r else p :: resourceMapDelete rest r

/-- Embeds `LoggerMainService.registerLogger(resource, windowId?)` (lines
35-40): when a window id is supplied the resource is recorded in
`loggerResourcesByWindow` (a registration without a window id records
nothing there), then the base registration runs.

Modelled from the spec: the base `LoggerService.registerLogger`
(`vs/platform/log/node` and `common`, not among the sources; the spec
treats the log-sink plumbing as an external collaborator) keeps a registry
keyed by resource, here a list to which an absent resource is appended. -/
def registerLogger (st : LoggerMainState) (resource : String) (windowId : Option Nat) :
    LoggerMainState :=
  let st1 :=
    match windowId with
    | some w =>
        { st with loggerResourcesByWindow := resourceMapSet st.loggerResourcesByWindow resource w }
    | none => st
  { st1 with registered :=
      if resource ∈ st1.registered then st1.registered else st1.registered ++ [resource] }

/-- Embeds `LoggerMainService.deregisterLogger(resource)` (lines 42-45):
drop the window association, then the base deregistration removes the
resource from the registry. -/
def deregisterLogger (st : LoggerMainState) (resource : String) : LoggerMainState :=
  { st with
      loggerResourcesByWindow := resourceMapDelete st.loggerResourcesByWindow resource,
      registered := st.registered.filter (fun r => decide (¬ r = resource)) }

/-- Embeds `isInterestedLoggerResource` (lines 84-87):
`loggerWindowId === undefined || loggerWindowId === windowId`. -/
def isInterestedLoggerResource (st : LoggerMainState) (resource : String)
    (windowId : Option Nat) : Bool :=
  let loggerWindowId := resourceMapGet st.loggerResourcesByWindow resource
  decide (loggerWindowId = none) || decide (loggerWindowId = windowId)

/-- Embeds `getRegisteredLoggers(windowId?)` (lines 47-55): the base
registry filtered through `isInterestedLoggerResource`. -/
def getRegisteredLoggers (st : LoggerMainState) (windowId : Option Nat) : List String :=
  st.registered.filter (fun r => isInterestedLoggerResource st r windowId)

/-- Registration/deregistration calls made against one
`LoggerMainService`. -/
inductive LogEvent where
  | reg (resource : String) (windowId : Option Nat)
  | dereg (resource : String)
deriving DecidableEq, Repr

/-- One service call. -/
def logStep (st : LoggerMainState) : LogEvent → LoggerMainState
  | LogEvent.reg r w => registerLogger st r w
  | LogEvent.dereg r => deregisterLogger st r

/-- Freshly constructed service: empty registry, empty window map. -/
def loggerInit : LoggerMainState := { registered := [], loggerResourcesByWindow := [] }

/-- Service state after a call trace. -/
def runLog (t : List LogEvent) : LoggerMainState := t.foldl logStep loggerInit

/-- Registration status of resource `r` after trace `t`, read off the
trace itself (the specification-side notion): `none` when `r` is not
currently registered, `some wid` when the registration of `r` still in
effect was made with window id `wid` (`wid = none` meaning it carried no
window id). -/
def regStatus (t : List LogEvent) (r : String) : Option (Option Nat) :=
  t.foldl (fun acc e =>
    match e with
    | LogEvent.reg rr w => if rr = r then some w else acc
    | LogEvent.dereg rr => if rr = r then none else acc) none

/-- Resources named by the registration events of a trace. -/
def regResources (t : List LogEvent) : List String :=
  t.filterMap (fun e =>
    match e with
    | LogEvent.reg r _ => some r
    | LogEvent.dereg _ => none)

/-- Lookup after setting the same key. -/
theorem resourceMapGet_set_self (m : List (String × Nat)) (r : String) (w : Nat) :
    resourceMapGet (resourceMapSet m r w) r = some w := by
  induction m with
  | nil => simp [resourceMapSet, resourceMapGet]
  | cons p rest ih =>
    by_cases h : p.1 = r <;> simp [resourceMapSet, resourceMapGet, h, ih]

/-- Lookup after setting a different key. -/
theorem resourceMapGet_set_ne (m : List (String × Nat)) (r' : String) (w : Nat) (r : String)
    (h : ¬ r' = r) :
    resourceMapGet (resourceMapSet m r' w) r = resourceMapGet m r := by
  induction m with
  | nil => simp [resourceMapSet, resourceMapGet, h]
  | cons p rest ih =>
    by_cases hp : p.1 = r' <;> by_cases hr : p.1 = r <;>
      simp_all [resourceMapSet, resourceMapGet]

/-- Lookup after deleting the same key. -/
theorem resourceMapGet_delete_self (m : List (String × Nat)) (r : String) :
    resourceMapGet (resourceMapDelete m r) r = none := by
  induction m with
  | nil => simp [resourceMapDelete, resourceMapGet]
  | cons p rest ih =>
    by_cases h : p.1 = r <;> simp [resourceMapDelete, resourceMapGet, h, ih]

/-- Lookup after deleting a different key. -/
theorem resourceMapGet_delete_ne (m : List (String × Nat)) (r' r : String) (h : ¬ r' = r) :
    resourceMapGet (resourceMapDelete m r') r = resourceMapGet m r := by
  induction m with
  | nil => simp [resourceMapDelete, resourceMapGet]
  | cons p rest ih =>
    by_cases hp : p.1 = r' <;> by_cases hr : p.1 = r <;>
      simp_all [resourceMapDelete, resourceMapGet]

/-- Running one more call. -/
theorem runLog_concat (t : List LogEvent) (e : LogEvent) :
    runLog (t ++ [e]) = logStep (runLog t) e := by
  simp [runLog, List.foldl_append]

/-- Trace-side registration status after one more registration. -/
theorem regStatus_concat_reg (t : List LogEvent) (rr : String) (w : Option Nat) (r : String) :
    regStatus (t ++ [LogEvent.reg rr w]) r = if rr = r then some w else regStatus t r := by
  simp [regStatus, List.foldl_append]

/-- Trace-side registration status after one more deregistration. -/
theorem regStatus_concat_dereg (t : List LogEvent) (rr : String) (r : String) :
    regStatus (t ++ [LogEvent.dereg rr]) r = if rr = r then none else regStatus t r := by
  simp [regStatus, List.foldl_append]

/-- Registration resources after one more registration. -/
theorem regResources_concat_reg (t : List LogEvent) (rr : String) (w : Option Nat) :
    regResources (t ++ [LogEvent.reg rr w]) = regResources t ++ [rr] := by
  simp [regResources]

/-- Registration resources after one more deregistration. -/
theorem regResources_concat_dereg (t : List LogEvent) (rr : String) :
    regResources (t ++ [LogEvent.dereg rr]) = regResources t := by
  simp [regResources]

/-- A resource never registered has no trace-side registration status. -/
theorem regStatus_eq_none_of_not_mem (t : List LogEvent) (r : String)
    (h : r ∉ regResources t) : regStatus t r = none := by
  induction t using List.reverseRecOn with
  | nil => simp [regStatus]
  | append_singleton t e ih =>
    cases e with
    | reg rr w =>
      rw [regResources_concat_reg] at h
      have hne : ¬ rr = r := by
        intro hh
        exact h (by simp [hh])
      rw [regStatus_concat_reg, if_neg hne]
      exact ih (fun hm => h (List.mem_append_left _ hm))
    | dereg rr =>
      rw [regResources_concat_dereg] at h
      rw [regStatus_concat_dereg]
      by_cases hrr : rr = r <;> simp [hrr, ih h]

/-- The window map of the service agrees with the trace-side registration
status, provided no resource is registered twice in the trace. -/
theorem runLog_byWindow_eq (t : List LogEvent) :
    (regResources t).Pairwise (fun a b => a ≠ b) →
    ∀ r : String,
      resourceMapGet (runLog t).loggerResourcesByWindow r = (regStatus t r).bind id := by
  induction t using List.reverseRecOn with
  | nil =>
    intro _ r
    simp [runLog, loggerInit, resourceMapGet, regStatus]
  | append_singleton t e ih =>
    intro hd r
    rw [runLog_concat]
    cases e with
    | reg rr w =>
      rw [regResources_concat_reg, List.pairwise_append] at hd
      obtain ⟨hd1, _, hfresh⟩ := hd
      rw [regStatus_concat_reg]
      by_cases hr : rr = r
      · subst hr
        cases w with
        | some v =>
          simp [logStep, registerLogger, resourceMapGet_set_self]
        | none =>
          have hnm : rr ∉ regResources t := by
            intro hmem
            exact hfresh rr hmem rr (List.mem_singleton_self _) rfl
          have h0 : regStatus t rr = none := regStatus_eq_none_of_not_mem t rr hnm
          have hih := ih hd1 rr
          rw [h0] at hih
          simp [logStep, registerLogger]
          simpa using hih
      · cases w with
        | some v =>
          simp only [logStep, registerLogger]
          simp [resourceMapGet_set_ne _ rr v r hr, ih hd1 r, hr]
        | none =>
          simp [logStep, registerLogger, ih hd1 r, hr]
    | dereg rr =>
      rw [regResources_concat_dereg] at hd
      rw [regStatus_concat_dereg]
      by_cases hr : rr = r
      · subst hr
        simp [logStep, deregisterLogger, resourceMapGet_delete_self]
      · simp [logStep, deregisterLogger, resourceMapGet_delete_ne _ rr r hr, ih hd r, hr]

/-- The base registry of the service holds exactly the resources whose
trace-side registration status is present. -/
theorem runLog_registered_iff (t : List LogEvent) :
    ∀ r : String, r ∈ (runLog t).registered ↔ (regStatus t r).isSome = true := by
  induction t using List.reverseRecOn with
  | nil =>
    intro r
    simp [runLog, loggerInit, regStatus]
  | append_singleton t e ih =>
    intro r
    rw [runLog_concat]
    cases e with
    | reg rr w =>
      rw [regStatus_concat_reg]
      have hrr : r ∈ (registerLogger (runLog t) rr w).registered ↔
          (r ∈ (runLog t).registered ∨ r = rr) := by
        cases w with
        | none =>
          by_cases hmem : rr ∈ (runLog t).registered
          · simp [registerLogger, hmem]
            intro hq
            subst hq
            exact hmem
          · simp [registerLogger, hmem]
        | some v =>
          by_cases hmem : rr ∈ (runLog t).registered
          · simp [registerLogger, hmem]
            intro hq
            subst hq
            exact hmem
          · simp [registerLogger, hmem]
      by_cases hr : rr = r
      · subst hr
        simp [logStep, hrr]
      · have hr' : ¬ r = rr := fun hh => hr hh.symm
        simp [logStep, hrr, hr, hr', ih r]
    | dereg rr =>
      rw [regStatus_concat_dereg]
      by_cases hr : rr = r
      · subst hr
        simp [logStep, deregisterLogger, List.mem_filter]
      · have hr' : ¬ r = rr := fun hh => hr hh.symm
        simp [logStep, deregisterLogger, List.mem_filter, hr, hr', ih r]

/-- C10: over any call trace in which no resource is registered twice, a
resource is returned by `getRegisteredLoggers(w)` exactly when it is
currently registered and its registration either carried no window id or
carried window id `w`; in particular resources registered under a
different window id are excluded, and a resource registered with no window
id is visible to every window. -/
theorem getRegisteredLoggers_spec (t : List LogEvent)
    (hd : (regResources t).Pairwise (fun a b => a ≠ b)) (w : Nat) (r : String) :
    r ∈ getRegisteredLoggers (runLog t) (some w) ↔
      ∃ wid : Option Nat, regStatus t r = some wid ∧ (wid = none ∨ wid = some w) := by
  have hA := runLog_byWindow_eq t hd r
  have hB := runLog_registered_iff t r
  rw [getRegisteredLoggers, List.mem_filter]
  cases hrs : regStatus t r with
  | none =>
    rw [hrs] at hA hB
    simp at hB
    simp [hB]
  | some wid =>
    rw [hrs] at hA hB
    simp at hB
    cases wid with
    | none =>
      simp [isInterestedLoggerResource, hA, hB]
    | some v =>
      simp [isInterestedLoggerResource, hA, hB]

/-- Witness for C10 at a concrete call trace: a logger registered for
window 1 is visible to window 1, alongside one registered with no window
id; one registered for window 2 and one deregistered are excluded. -/
theorem getRegisteredLoggers_spec_witness :
    ("b" ∈ getRegisteredLoggers
        (runLog [LogEvent.reg "a" none, LogEvent.reg "b" (some 1),
                 LogEvent.reg "c" (some 2), LogEvent.dereg "c"]) (some 1) ↔
      ∃ wid : Option Nat,
        regStatus [LogEvent.reg "a" none, LogEvent.reg "b" (some 1),
                   LogEvent.reg "c" (some 2), LogEvent.dereg "c"] "b" = some wid ∧
        (wid = none ∨ wid = some 1)) :=
  getRegisteredLoggers_spec
    [LogEvent.reg "a" none, LogEvent.reg "b" (some 1),
     LogEvent.reg "c" (some 2), LogEvent.dereg "c"]
    (by decide) 1 "b"
